import Mathlib

/-
Verification of scripts/fetch_publications.py (AstWeb repository).

Shallow embedding notes:
- Python dictionaries with optional keys are modelled as structures with
  `Option` fields; `d.get(k, default)` becomes `field.getD default`.
- Python truthiness on strings ("" is falsy) is `optStrTruthy`; on an
  optional integer it is `optIntTruthy` (0 is falsy); on a put-code it is
  `optNatTruthy`.
- The ORCID year value is a decimal string in the source; it is modelled as
  `Option (Option Int)`: outer `none` is a missing/null value, inner `none`
  is the empty string "" (falsy), `some (some n)` is a numeric string
  (truthy, `int()` gives `n`).  Non-numeric year strings, which would make
  `int(year)` raise in the source, are outside the model.
- Network calls (`requests.get`) are oracles passed as function arguments:
  `cr : String → Option CRResult` for `fetch_crossref_details` keyed by DOI
  (none = failure), `wd : Nat → Option WorkDetail` for `fetch_work_details`
  keyed by put-code.
- `fetch_crossref_details` itself is embedded on a decoded CrossRef
  `message`; the one reachable exception inside it (indexing
  `date-parts[0]` when the stored list is empty) makes the whole call
  return `none`, as the source's catch-all `except` does.
-/

namespace AstWeb

/-- Python truthiness of an optional string: `None` and `""` are falsy. -/
def optStrTruthy : Option String → Bool
  | none => false
  | some s => decide (s ≠ "")

/-- Python truthiness of an optional integer: `None` and `0` are falsy. -/
def optIntTruthy : Option Int → Bool
  | none => false
  | some n => decide (n ≠ 0)

/-- Python truthiness of an optional natural (put-code): `None` and `0` are falsy. -/
def optNatTruthy : Option Nat → Bool
  | none => false
  | some n => decide (n ≠ 0)

/-- Python `a or b` on optional strings. -/
def pyOr (a b : Option String) : Option String :=
  if optStrTruthy a then a else b

/-- `crossref_value or orcid_value` where the fallback is a plain string. -/
def strOr (a : Option String) (b : String) : String :=
  match a with
  | none => b
  | some s => if s = "" then b else s

/-- `crossref_year or orcid_year` on optional integers (Python `or`). -/
def intOr (a b : Option Int) : Option Int :=
  match a with
  | none => b
  | some n => if n = 0 then b else a

/-- One entry of a CrossRef `author` list: keys `given` and `family`. -/
structure CRAuthor where
  given : Option String
  family : Option String
deriving DecidableEq, Repr

/-- A CrossRef date object: key `date-parts`, a list of date lists. -/
structure CRDate where
  dateParts : Option (List (List Int))
deriving DecidableEq, Repr

/-- The decoded CrossRef `message` object; `Option` fields are optional keys.
`referenceCount` stands for the length of the `reference` list (only its
length is read by the source). -/
structure CRMessage where
  author : Option (List CRAuthor)
  title : Option (List String)
  containerTitle : Option (List String)
  published : Option CRDate
  publishedPrint : Option CRDate
  publishedOnline : Option CRDate
  doi : Option String
  url : Option String
  type : Option String
  abstract : Option String
  isReferencedByCount : Option Nat
  publisher : Option String
  volume : Option String
  issue : Option String
  page : Option String
  referenceCount : Option Nat
deriving DecidableEq, Repr

/-- The `result` dictionary built by `fetch_crossref_details`.  Keys that the
source sets only conditionally (`authors`, `title`, `journal`, `year`,
`references_count`) are `Option`; `authors = none` also covers the
explicitly stored `None` join, which is indistinguishable from an absent key
for the single `.get` consumer. -/
structure CRResult where
  authors : Option String
  title : Option String
  journal : Option String
  year : Option Int
  doi : Option String
  url : Option String
  type : String
  is_preprint : Bool
  abstract : String
  citations : Nat
  publisher : String
  volume : String
  issue : String
  pages : String
  references_count : Option Nat
deriving DecidableEq, Repr

/-- Author-name formatting of `fetch_crossref_details`: `given family` when
both are truthy, the family name alone when only it is, nothing otherwise. -/
def crAuthorName (a : CRAuthor) : Option String :=
  let given := a.given.getD ""
  let family := a.family.getD ""
  if given ≠ "" ∧ family ≠ "" then some (given ++ " " ++ family)
  else if family ≠ "" then some family
  else none

/-- `", ".join(authors) if authors else None` over a CrossRef author list. -/
def crJoinAuthors (l : List CRAuthor) : Option String :=
  let names := l.filterMap crAuthorName
  if names.isEmpty then none else some (String.intercalate ", " names)

/-- `d.get('date-parts', [[]])[0]` followed by the `if pub_date:` test:
`none` is the IndexError raised when the stored `date-parts` list is empty,
`some y` the extracted optional year. -/
def crDateYear (d : CRDate) : Option (Option Int) :=
  match d.dateParts.getD [[]] with
  | [] => none
  | pd :: _ => some pd.head?

/-- The `published` / `published-print` / `published-online` elif chain of
`fetch_crossref_details`; `none` propagates the IndexError case. -/
def crYear (m : CRMessage) : Option (Option Int) :=
  match m.published with
  | some d => crDateYear d
  | none =>
    match m.publishedPrint with
    | some d => crDateYear d
    | none =>
      match m.publishedOnline with
      | some d => crDateYear d
      | none => some none

/-- The CrossRef `type_mapping` dictionary (default `Publication`). -/
def crTypeMap (t : String) : String :=
  if t = "journal-article" then "Research Article"
  else if t = "proceedings-article" then "Conference Paper"
  else if t = "book-chapter" then "Book Chapter"
  else if t = "book" then "Book"
  else if t = "dissertation" then "Dissertation"
  else "Publication"

/-- Embedding of `fetch_crossref_details` on a decoded `message`; `none` is
the catch-all `except` path (the empty `date-parts` IndexError). -/
def fetch_crossref_details (m : CRMessage) : Option CRResult :=
  match crYear m with
  | none => none
  | some yr =>
    let pubType := m.type.getD ""
    some {
      authors := m.author.bind crJoinAuthors
      title := m.title.bind fun l => if l.isEmpty then none else l.head?
      journal := m.containerTitle.bind fun l => if l.isEmpty then none else l.head?
      year := yr
      doi := m.doi
      url := pyOr m.url
        (if optStrTruthy m.doi then m.doi.map (fun d => "https://doi.org/" ++ d) else none)
      type := crTypeMap pubType
      is_preprint := pubType == "posted-content" || pubType == "preprint"
      abstract := m.abstract.getD ""
      citations := m.isReferencedByCount.getD 0
      publisher := m.publisher.getD ""
      volume := m.volume.getD ""
      issue := m.issue.getD ""
      pages := m.page.getD ""
      references_count := m.referenceCount }

/-- A `{ "value": ... }` leaf object (ORCID title/journal/url/credit-name). -/
structure ValueField where
  value : Option String
deriving DecidableEq, Repr

/-- ORCID `title` object: key `title` holding a value leaf. -/
structure OrcidTitle where
  title : Option ValueField
deriving DecidableEq, Repr

/-- ORCID `publication-date` `year` leaf.  The stored value is a decimal
string: `some (some n)` is the numeral for `n`, `some none` the empty
string, `none` a missing value. -/
structure YearField where
  value : Option (Option Int)
deriving DecidableEq, Repr

/-- ORCID `publication-date` object. -/
structure OrcidDate where
  year : Option YearField
deriving DecidableEq, Repr

/-- One ORCID external id: keys `external-id-type` and `external-id-value`. -/
structure ExternalId where
  idType : Option String
  idValue : Option String
deriving DecidableEq, Repr

/-- ORCID `external-ids` object: key `external-id`, a list whose entries may
be null. -/
structure ExternalIds where
  externalId : Option (List (Option ExternalId))
deriving DecidableEq, Repr

/-- One ORCID work summary (the fields `parse_orcid_works` reads). -/
structure WorkSummary where
  putCode : Option Nat
  title : Option OrcidTitle
  publicationDate : Option OrcidDate
  journalTitle : Option ValueField
  type : Option String
  externalIds : Option ExternalIds
  url : Option ValueField
deriving DecidableEq, Repr

/-- One ORCID work group: key `work-summary`, a list whose entries may be
null. -/
structure Group where
  workSummary : Option (List (Option WorkSummary))
deriving DecidableEq, Repr

/-- The decoded ORCID works response: key `group`. -/
structure OrcidData where
  group : Option (List Group)
deriving DecidableEq, Repr

/-- One contributor of an ORCID work detail: key `credit-name`. -/
structure Contributor where
  creditName : Option ValueField
deriving DecidableEq, Repr

/-- ORCID work-detail `contributors` object: key `contributor`. -/
structure ContributorsData where
  contributor : Option (List (Option Contributor))
deriving DecidableEq, Repr

/-- The decoded ORCID work-detail response: key `contributors`. -/
structure WorkDetail where
  contributors : Option ContributorsData
deriving DecidableEq, Repr

/-- One output record, as assembled by `parse_orcid_works`. -/
structure Publication where
  title : String
  authors : String
  journal : String
  year : Option Int
  doi : Option String
  url : Option String
  type : String
  citations : Nat
  abstract : String
  publisher : String
  volume : String
  issue : String
  pages : String
  references_count : Nat
deriving DecidableEq, Repr

/-- The truthy credit-name of one contributor, as the extraction loop reads
it (`credit-name` present, its `value` present and non-empty). -/
def creditNameOf (c : Contributor) : Option String :=
  match c.creditName with
  | none => none
  | some cn =>
    match cn.value with
    | none => none
    | some v => if v = "" then none else some v

/-- Embedding of `extract_authors_from_work_detail`. -/
def extract_authors_from_work_detail (wdet : Option WorkDetail) : Option String :=
  match wdet with
  | none => none
  | some w =>
    match w.contributors with
    | none => none
    | some cd =>
      match cd.contributor.getD [] with
      | [] => none
      | contributors =>
        let names := contributors.filterMap fun c => c.bind creditNameOf
        if names.isEmpty then none else some (String.intercalate ", " names)

/-- `work_summary.get('title', \x7b\x7d).get('title', \x7b\x7d).get('value', 'Untitled')`. -/
def orcidTitle (ws : WorkSummary) : String :=
  ((ws.title.bind OrcidTitle.title).bind ValueField.value).getD "Untitled"

/-- The raw ORCID year string: `pub_date.get('year', \x7b\x7d).get('value') if pub_date else None`. -/
def orcidYearStr (ws : WorkSummary) : Option (Option Int) :=
  match ws.publicationDate with
  | none => none
  | some pd => (pd.year.bind YearField.value)

/-- Python truthiness of the raw year string ("" and `None` are falsy). -/
def yearStrTruthy : Option (Option Int) → Bool
  | some (some _) => true
  | _ => false

/-- `int(year) if year else None` on the modelled year string. -/
def orcidYearInt : Option (Option Int) → Option Int
  | some (some n) => some n
  | _ => none

/-- The ORCID journal title with its defaults. -/
def orcidJournal (ws : WorkSummary) : String :=
  match ws.journalTitle with
  | none => ""
  | some j => j.value.getD ""

/-- The DOI search loop: first external id of type `doi` wins (its value is
taken even when missing, because the loop breaks on the type match). -/
def findDoi : List (Option ExternalId) → Option String
  | [] => none
  | none :: rest => findDoi rest
  | some e :: rest =>
    if e.idType = some "doi" then e.idValue else findDoi rest

/-- The DOI extracted from a work summary. -/
def orcidDoi (ws : WorkSummary) : Option String :=
  match ws.externalIds with
  | none => none
  | some e => findDoi (e.externalId.getD [])

/-- `url_data.get('value') if url_data else None`. -/
def orcidUrl (ws : WorkSummary) : Option String :=
  match ws.url with
  | none => none
  | some u => u.value

/-- The ORCID `type_mapping` dictionary (default `Publication`). -/
def orcidTypeMap (t : String) : String :=
  if t = "journal-article" then "Research Article"
  else if t = "conference-paper" then "Conference Paper"
  else if t = "book" then "Book"
  else if t = "book-chapter" then "Book Chapter"
  else if t = "dissertation" then "Dissertation"
  else "Publication"

/-- The `publication.update(\x7b...\x7d)` merge of CrossRef data onto the
provisional record (source lines 348-363). -/
def mergeCrossref (p : Publication) (c : CRResult) : Publication :=
  { title := strOr c.title p.title
    authors := strOr c.authors p.authors
    journal := strOr c.journal (if c.publisher = "" then p.journal else c.publisher)
    year := intOr c.year p.year
    doi := pyOr c.doi p.doi
    url := pyOr c.url p.url
    type := if c.type = "" then p.type else c.type
    citations := c.citations
    abstract := c.abstract
    publisher := c.publisher
    volume := c.volume
    issue := c.issue
    pages := c.pages
    references_count := c.references_count.getD 0 }

/-- The author fallback: `if put_code:` fetch the work detail and extract
contributor credit names. -/
def fallbackAuthors (wd : Nat → Option WorkDetail) (putCode : Option Nat) : Option String :=
  if optNatTruthy putCode then extract_authors_from_work_detail (wd (putCode.getD 0))
  else none

/-- `work_summary_list[0]` after the two skip checks: `none` when the list
is absent/empty or its first entry is null. -/
def firstSummary (g : Group) : Option WorkSummary :=
  match g.workSummary.getD [] with
  | [] => none
  | ws :: _ => ws

/-- The body of the per-group loop of `parse_orcid_works` up to (but not
including) the final `if title and year` retention test.  Returns the
candidate record together with the two ORCID-derived locals `title` and
`year` that the retention test reads; `none` on every earlier skip branch
(ORCID preprint, CrossRef preprint). -/
def processSummary (cr : String → Option CRResult) (wd : Nat → Option WorkDetail)
    (ws : WorkSummary) : Option (Publication × String × Option (Option Int)) :=
  let title := orcidTitle ws
  let yearStr := orcidYearStr ws
  let pubType := ws.type.getD "journal-article"
  if pubType = "preprint" then none
  else
    let doi := orcidDoi ws
    let pub : Publication := {
      title := title
      authors := "Authors not available"
      journal := orcidJournal ws
      year := orcidYearInt yearStr
      doi := doi
      url := pyOr (orcidUrl ws)
        (if optStrTruthy doi then doi.map (fun d => "https://doi.org/" ++ d) else none)
      type := orcidTypeMap pubType
      citations := 0
      abstract := ""
      publisher := ""
      volume := ""
      issue := ""
      pages := ""
      references_count := 0 }
    if optStrTruthy doi then
      match cr (doi.getD "") with
      | some c =>
        if c.is_preprint then none
        else some (mergeCrossref pub c, title, yearStr)
      | none =>
        let fb := fallbackAuthors wd ws.putCode
        some ((if optStrTruthy fb then { pub with authors := fb.getD "" } else pub), title, yearStr)
    else
      let fb := fallbackAuthors wd ws.putCode
      some ((if optStrTruthy fb then { pub with authors := fb.getD "" } else pub), title, yearStr)

/-- The per-group loop body before the retention test (skip checks on the
work-summary list included). -/
def processGroupCandidate (cr : String → Option CRResult) (wd : Nat → Option WorkDetail)
    (g : Group) : Option (Publication × String × Option (Option Int)) :=
  match firstSummary g with
  | none => none
  | some ws => processSummary cr wd ws

/-- One full iteration of the per-group loop: the candidate filtered by
`if title and year:` (on the ORCID-derived locals). -/
def processGroup (cr : String → Option CRResult) (wd : Nat → Option WorkDetail)
    (g : Group) : Option Publication :=
  match processGroupCandidate cr wd g with
  | none => none
  | some (p, title, yearStr) =>
    if title ≠ "" ∧ yearStrTruthy yearStr then some p else none

/-- Embedding of `parse_orcid_works` (the network oracles are arguments;
`data = none` models a falsy `data` argument). -/
def parse_orcid_works (cr : String → Option CRResult) (wd : Nat → Option WorkDetail)
    (data : Option OrcidData) : List Publication :=
  match data with
  | none => []
  | some d =>
    match d.group with
    | none => []
    | some groups => groups.filterMap (processGroup cr wd)

/-- The serialized envelope of `save_publications`. -/
structure Envelope where
  last_updated : String
  count : Nat
  publications : List Publication
deriving DecidableEq, Repr

/-- Embedding of `save_publications`: the envelope written to the output
file (`now` is the timestamp). -/
def save_publications (now : String) (pubs : List Publication) : Envelope :=
  { last_updated := now, count := pubs.length, publications := pubs }

/-- Embedding of `main` with `USE_GOOGLE_SCHOLAR = False` (the configured
value): returns the exit code and the envelope written, if any
(`fetchResult = none` models a falsy/failed top-level works fetch). -/
def main (cr : String → Option CRResult) (wd : Nat → Option WorkDetail)
    (fetchResult : Option OrcidData) (now : String) : Nat × Option Envelope :=
  match fetchResult with
  | none => (1, none)
  | some d =>
    let pubs := parse_orcid_works cr wd (some d)
    if pubs.isEmpty then (1, none)
    else (0, some (save_publications now pubs))

theorem strOr_absorb (a : Option String) (b : String) : strOr a (strOr a b) = strOr a b := by
  cases a with
  | none => rfl
  | some s => by_cases h : s = "" <;> simp [strOr, h]

theorem intOr_absorb (a b : Option Int) : intOr a (intOr a b) = intOr a b := by
  cases a with
  | none => rfl
  | some n => by_cases h : n = 0 <;> simp [intOr, h]

theorem pyOr_absorb (a b : Option String) : pyOr a (pyOr a b) = pyOr a b := by
  by_cases h : optStrTruthy a <;> simp [pyOr, h]

/-- C5: the field merge of `parse_orcid_works` (overlaying a fixed CrossRef
result onto a provisional Publication) is idempotent: applying the overlay
twice with the same CrossRef data yields the same Publication as applying it
once. -/
theorem C5_merge_idempotent (p : Publication) (c : CRResult) :
    mergeCrossref (mergeCrossref p c) c = mergeCrossref p c := by
  unfold mergeCrossref
  by_cases h : c.publisher = "" <;> by_cases ht : c.type = "" <;>
    simp [h, ht, strOr_absorb, intOr_absorb, pyOr_absorb]

/-- C7: for every publications list passed to `save_publications`, the
serialized envelope's `count` field equals the length of its `publications`
sequence, and the sequence is exactly the input list in order. -/
theorem C7_envelope_count (now : String) (pubs : List Publication) :
    (save_publications now pubs).count = pubs.length ∧
    (save_publications now pubs).publications = pubs :=
  ⟨rfl, rfl⟩

theorem strOr_eq_ite (a : Option String) (b : String) :
    strOr a b = if optStrTruthy a then a.getD "" else b := by
  cases a with
  | none => rfl
  | some s => by_cases h : s = "" <;> simp [strOr, optStrTruthy, h]

theorem intOr_eq_ite (a b : Option Int) :
    intOr a b = if optIntTruthy a then a else b := by
  cases a with
  | none => rfl
  | some n => by_cases h : n = 0 <;> simp [intOr, optIntTruthy, h]

theorem pyOr_eq_ite (a b : Option String) :
    pyOr a b = if optStrTruthy a then a else b := rfl

/-- A CrossRef message without a `container-title` but with a `publisher`,
used against C2. -/
def c2msg : CRMessage := {
  author := none
  title := none
  containerTitle := none
  published := some { dateParts := some [[2020]] }
  publishedPrint := none
  publishedOnline := none
  doi := some "10.1/x"
  url := none
  type := some "journal-article"
  abstract := none
  isReferencedByCount := none
  publisher := some "Springer"
  volume := none
  issue := none
  page := none
  referenceCount := none }

/-- A provisional record whose ORCID-derived journal is non-empty. -/
def c2pub : Publication := {
  title := "Foo"
  authors := "Authors not available"
  journal := "Orcid Journal"
  year := some 2020
  doi := some "10.1/x"
  url := some "https://doi.org/10.1/x"
  type := "Research Article"
  citations := 0
  abstract := ""
  publisher := ""
  volume := ""
  issue := ""
  pages := ""
  references_count := 0 }

/-- C2 counterexample: CrossRef supplies no `journal` field for `c2msg`, yet
the merged record's journal is CrossRef's publisher "Springer" instead of
the ORCID-derived "Orcid Journal" — the ORCID value of the unsupplied field
is not retained. -/
theorem C2_counterexample :
    (fetch_crossref_details c2msg).map CRResult.journal = some none ∧
    (fetch_crossref_details c2msg).map (fun c => (mergeCrossref c2pub c).journal) =
      some "Springer" ∧
    c2pub.journal = "Orcid Journal" :=
  ⟨rfl, rfl, rfl⟩

/-- C2 (amended): in the merge step, for every field a truthy CrossRef value
replaces the ORCID-derived value and an absent/falsy CrossRef value leaves
the ORCID-derived value (given the provisional record's fixed defaults for
the CrossRef-only fields) — except `journal`, which falls back to CrossRef's
`publisher` before the ORCID journal. -/
theorem C2_amended (p : Publication) (c : CRResult)
    (h1 : p.citations = 0) (h2 : p.abstract = "") (h3 : p.publisher = "")
    (h4 : p.volume = "") (h5 : p.issue = "") (h6 : p.pages = "")
    (h7 : p.references_count = 0) :
    ((mergeCrossref p c).title = if optStrTruthy c.title then c.title.getD "" else p.title) ∧
    ((mergeCrossref p c).authors =
      if optStrTruthy c.authors then c.authors.getD "" else p.authors) ∧
    ((mergeCrossref p c).year = if optIntTruthy c.year then c.year else p.year) ∧
    ((mergeCrossref p c).doi = if optStrTruthy c.doi then c.doi else p.doi) ∧
    ((mergeCrossref p c).url = if optStrTruthy c.url then c.url else p.url) ∧
    ((mergeCrossref p c).type = if c.type ≠ "" then c.type else p.type) ∧
    ((mergeCrossref p c).journal =
      if optStrTruthy c.journal then c.journal.getD ""
      else if c.publisher ≠ "" then c.publisher else p.journal) ∧
    ((mergeCrossref p c).citations = if c.citations ≠ 0 then c.citations else p.citations) ∧
    ((mergeCrossref p c).abstract = if c.abstract ≠ "" then c.abstract else p.abstract) ∧
    ((mergeCrossref p c).publisher = if c.publisher ≠ "" then c.publisher else p.publisher) ∧
    ((mergeCrossref p c).volume = if c.volume ≠ "" then c.volume else p.volume) ∧
    ((mergeCrossref p c).issue = if c.issue ≠ "" then c.issue else p.issue) ∧
    ((mergeCrossref p c).pages = if c.pages ≠ "" then c.pages else p.pages) ∧
    ((mergeCrossref p c).references_count =
      if c.references_count.getD 0 ≠ 0 then c.references_count.getD 0
      else p.references_count) := by
  refine ⟨?_, ?_, ?_, ?_, ?_, ?_, ?_, ?_, ?_, ?_, ?_, ?_, ?_, ?_⟩
  · simp [mergeCrossref, strOr_eq_ite]
  · simp [mergeCrossref, strOr_eq_ite]
  · simp [mergeCrossref, intOr_eq_ite]
  · simp [mergeCrossref, pyOr_eq_ite]
  · simp [mergeCrossref, pyOr_eq_ite]
  · by_cases h : c.type = "" <;> simp [mergeCrossref, h]
  · by_cases h : c.publisher = "" <;> simp [mergeCrossref, strOr_eq_ite, h]
  · by_cases h : c.citations = 0 <;> simp [mergeCrossref, h, h1]
  · by_cases h : c.abstract = "" <;> simp [mergeCrossref, h, h2]
  · by_cases h : c.publisher = "" <;> simp [mergeCrossref, h, h3]
  · by_cases h : c.volume = "" <;> simp [mergeCrossref, h, h4]
  · by_cases h : c.issue = "" <;> simp [mergeCrossref, h, h5]
  · by_cases h : c.pages = "" <;> simp [mergeCrossref, h, h6]
  · by_cases h : c.references_count.getD 0 = 0 <;> simp [mergeCrossref, h, h7]

/-- A CrossRef result used to instantiate the amended C2. -/
def c2wres : CRResult := {
  authors := some "A B"
  title := some "CR Title"
  journal := none
  year := some 2021
  doi := none
  url := none
  type := "Research Article"
  is_preprint := false
  abstract := ""
  citations := 3
  publisher := "Pub"
  volume := ""
  issue := ""
  pages := ""
  references_count := none }

/-- A provisional record with the defaults, for the C2 witness. -/
def c2wpub : Publication := {
  title := "Foo"
  authors := "Authors not available"
  journal := "J"
  year := some 2020
  doi := none
  url := none
  type := "Publication"
  citations := 0
  abstract := ""
  publisher := ""
  volume := ""
  issue := ""
  pages := ""
  references_count := 0 }

theorem C2_witness :
    (mergeCrossref c2wpub c2wres).title =
      if optStrTruthy c2wres.title then c2wres.title.getD "" else c2wpub.title :=
  (C2_amended c2wpub c2wres rfl rfl rfl rfl rfl rfl rfl).1

/-- A work-detail oracle that always fails (no detail available). -/
def noWd : Nat → Option WorkDetail := fun _ => none

/-- A CrossRef message carrying only a year, used against C1. -/
def c1msg : CRMessage := {
  author := none
  title := none
  containerTitle := none
  published := some { dateParts := some [[2020]] }
  publishedPrint := none
  publishedOnline := none
  doi := none
  url := none
  type := some "journal-article"
  abstract := none
  isReferencedByCount := none
  publisher := none
  volume := none
  issue := none
  page := none
  referenceCount := none }

/-- A CrossRef oracle answering only for the DOI `10.1/x`. -/
def c1cr : String → Option CRResult :=
  fun d => if d = "10.1/x" then fetch_crossref_details c1msg else none

/-- An ORCID summary with a title and a DOI but no publication date. -/
def c1ws : WorkSummary := {
  putCode := none
  title := some { title := some { value := some "Foo" } }
  publicationDate := none
  journalTitle := none
  type := some "journal-article"
  externalIds := some { externalId := some [some { idType := some "doi", idValue := some "10.1/x" }] }
  url := none }

def c1g : Group := { workSummary := some [some c1ws] }

def c1data : OrcidData := { group := some [c1g] }

/-- C1 counterexample: for `c1data` the post-merge candidate record has a
non-empty title "Foo" and a non-null year 2020 (supplied by CrossRef), yet
`parse_orcid_works` appends nothing — retention is decided by the pre-merge
ORCID locals, and the ORCID year is missing. -/
theorem C1_counterexample :
    parse_orcid_works c1cr noWd (some c1data) = [] ∧
    (processGroupCandidate c1cr noWd c1g).map (fun v => (v.1.title, v.1.year)) =
      some ("Foo", some 2020) :=
  ⟨rfl, rfl⟩

/-- C1 (amended): a record is appended if and only if the work survives the
skip branches and the pre-merge ORCID-derived `title` and `year` locals are
truthy; the post-merge (CrossRef-enriched) title and year play no role in
retention. -/
theorem C1_amended (cr : String → Option CRResult) (wd : Nat → Option WorkDetail)
    (g : Group) (p : Publication) :
    processGroup cr wd g = some p ↔
      ∃ t y, processGroupCandidate cr wd g = some (p, t, y) ∧
        t ≠ "" ∧ yearStrTruthy y = true := by
  unfold processGroup
  cases hc : processGroupCandidate cr wd g with
  | none => simp
  | some v =>
    obtain ⟨q, t, y⟩ := v
    dsimp only
    by_cases hty : t ≠ "" ∧ yearStrTruthy y = true
    · rw [if_pos hty]
      constructor
      · intro h
        refine ⟨t, y, ?_, hty.1, hty.2⟩
        rw [Option.some.inj h]
      · rintro ⟨t2, y2, heq, hne, hy⟩
        simp only [Option.some.injEq, Prod.mk.injEq] at heq
        exact congrArg some heq.1
    · rw [if_neg hty]
      constructor
      · intro h
        exact Option.noConfusion h
      · rintro ⟨t2, y2, heq, hne, hy⟩
        simp only [Option.some.injEq, Prod.mk.injEq] at heq
        exact absurd ⟨heq.2.1 ▸ hne, heq.2.2 ▸ hy⟩ hty

/-- An ORCID summary like `c1ws` but with a publication year, so that the
work is retained. -/
def c1wws : WorkSummary :=
  { c1ws with publicationDate := some { year := some { value := some (some 2019) } } }

def c1wg : Group := { workSummary := some [some c1wws] }

/-- The publication emitted for `c1wg` (CrossRef year 2020 overrides 2019). -/
def c1wpub : Publication := {
  title := "Foo"
  authors := "Authors not available"
  journal := ""
  year := some 2020
  doi := some "10.1/x"
  url := some "https://doi.org/10.1/x"
  type := "Research Article"
  citations := 0
  abstract := ""
  publisher := ""
  volume := ""
  issue := ""
  pages := ""
  references_count := 0 }

theorem C1_witness : processGroup c1cr noWd c1wg = some c1wpub :=
  (C1_amended c1cr noWd c1wg c1wpub).mpr
    ⟨"Foo", some (some 2019), rfl, by decide, rfl⟩

/-- C3: a work-group whose (first) summary has ORCID type `preprint` yields
no candidate and no Publication, for every CrossRef oracle and every
work-detail oracle — the skip happens before any CrossRef enrichment, so no
CrossRef data can change the outcome. -/
theorem C3_orcid_preprint_skipped (cr : String → Option CRResult)
    (wd : Nat → Option WorkDetail) (g : Group) (ws : WorkSummary)
    (h1 : firstSummary g = some ws)
    (h2 : ws.type.getD "journal-article" = "preprint") :
    processGroupCandidate cr wd g = none ∧ processGroup cr wd g = none := by
  have hcand : processGroupCandidate cr wd g = none := by
    unfold processGroupCandidate
    rw [h1]
    unfold processSummary
    simp [h2]
  exact ⟨hcand, by unfold processGroup; rw [hcand]⟩

/-- A rich CrossRef oracle (answers every DOI), showing C3 skips the
preprint whatever CrossRef would return. -/
def c3cr : String → Option CRResult := fun _ =>
  some {
    authors := some "A B"
    title := some "CR Title"
    journal := some "CR Journal"
    year := some 2022
    doi := some "10.1/y"
    url := some "https://doi.org/10.1/y"
    type := "Research Article"
    is_preprint := false
    abstract := "abs"
    citations := 9
    publisher := "Pub"
    volume := "1"
    issue := "2"
    pages := "3-4"
    references_count := some 5 }

/-- An ORCID summary typed `preprint`, with a title, a year and a DOI. -/
def c3ws : WorkSummary := {
  putCode := some 3
  title := some { title := some { value := some "Pre" } }
  publicationDate := some { year := some { value := some (some 2021) } }
  journalTitle := none
  type := some "preprint"
  externalIds := some { externalId := some [some { idType := some "doi", idValue := some "10.1/y" }] }
  url := none }

def c3g : Group := { workSummary := some [some c3ws] }

theorem C3_witness : processGroup c3cr noWd c3g = none :=
  (C3_orcid_preprint_skipped c3cr noWd c3g c3ws rfl rfl).2

/-- C4: when the work's DOI resolves through `fetch_crossref_details` to a
message whose CrossRef type is `posted-content` or `preprint`, the result
carries `is_preprint = true` and the work yields no Publication, with no
assumption on the ORCID type. -/
theorem C4_crossref_preprint_skipped (cr : String → Option CRResult)
    (wd : Nat → Option WorkDetail) (g : Group) (ws : WorkSummary)
    (d : String) (m : CRMessage) (c : CRResult)
    (h1 : firstSummary g = some ws)
    (h2 : orcidDoi ws = some d) (h3 : d ≠ "")
    (h4 : fetch_crossref_details m = some c)
    (h5 : m.type = some "posted-content" ∨ m.type = some "preprint")
    (h6 : cr d = some c) :
    c.is_preprint = true ∧ processGroup cr wd g = none := by
  have hpre : c.is_preprint = true := by
    unfold fetch_crossref_details at h4
    cases hY : crYear m with
    | none => rw [hY] at h4; exact Option.noConfusion h4
    | some yr =>
      rw [hY] at h4
      have hrec := Option.some.inj h4
      rw [← hrec]
      rcases h5 with h5 | h5 <;> simp [h5]
  refine ⟨hpre, ?_⟩
  unfold processGroup processGroupCandidate
  rw [h1]
  unfold processSummary
  by_cases hp : ws.type.getD "journal-article" = "preprint"
  · simp [hp]
  · simp [hp, h2, h6, hpre, optStrTruthy, h3]

/-- A CrossRef message typed `posted-content`, for the C4 witness. -/
def c4msg : CRMessage := {
  author := some [{ given := some "A", family := some "B" }]
  title := some ["T"]
  containerTitle := none
  published := some { dateParts := some [[2023]] }
  publishedPrint := none
  publishedOnline := none
  doi := some "10.1/z"
  url := none
  type := some "posted-content"
  abstract := none
  isReferencedByCount := some 1
  publisher := none
  volume := none
  issue := none
  page := none
  referenceCount := none }

def c4cr : String → Option CRResult :=
  fun d => if d = "10.1/z" then fetch_crossref_details c4msg else none

/-- The CrossRef result for `c4msg` (so the oracle equation is `rfl`). -/
def c4res : CRResult := {
  authors := some "A B"
  title := some "T"
  journal := none
  year := some 2023
  doi := some "10.1/z"
  url := some "https://doi.org/10.1/z"
  type := "Publication"
  is_preprint := true
  abstract := ""
  citations := 1
  publisher := ""
  volume := ""
  issue := ""
  pages := ""
  references_count := none }

/-- An ORCID summary that is not a preprint by ORCID's type, with DOI
`10.1/z`. -/
def c4ws : WorkSummary := {
  putCode := some 4
  title := some { title := some { value := some "T" } }
  publicationDate := some { year := some { value := some (some 2023) } }
  journalTitle := none
  type := some "journal-article"
  externalIds := some { externalId := some [some { idType := some "doi", idValue := some "10.1/z" }] }
  url := none }

def c4g : Group := { workSummary := some [some c4ws] }

theorem C4_witness : processGroup c4cr noWd c4g = none :=
  (C4_crossref_preprint_skipped c4cr noWd c4g c4ws "10.1/z" c4msg c4res
    rfl rfl (by decide) rfl (Or.inl rfl) rfl).2

/-- Year extraction as the spec words it: check `published`, then
`published-print`, then `published-online` in priority order by key
presence, and take the first element of the (first date of the) date-parts
array; absent when the selected key yields no date or no key is present. -/
def crossrefYearSpec (m : CRMessage) : Option Int :=
  match m.published with
  | some d => ((d.dateParts.getD [[]]).headD []).head?
  | none =>
    match m.publishedPrint with
    | some d => ((d.dateParts.getD [[]]).headD []).head?
    | none =>
      match m.publishedOnline with
      | some d => ((d.dateParts.getD [[]]).headD []).head?
      | none => none

theorem crDateYear_spec (d : CRDate) (yr : Option Int) (h : crDateYear d = some yr) :
    yr = ((d.dateParts.getD [[]]).headD []).head? := by
  unfold crDateYear at h
  cases hdp : d.dateParts.getD [[]] with
  | nil => rw [hdp] at h; exact Option.noConfusion h
  | cons pd rest =>
    rw [hdp] at h
    simp only [List.headD_cons]
    simpa using (Option.some.inj h).symm

/-- C6: whenever `fetch_crossref_details` succeeds, the extracted year is
exactly the claim's priority-ordered extraction — `published` first, then
`published-print`, then `published-online`, keyed on key presence, taking
the first element of the date-parts array, and absent when the selected key
yields no date. -/
theorem C6_year_priority (m : CRMessage) (r : CRResult)
    (h : fetch_crossref_details m = some r) :
    r.year = crossrefYearSpec m := by
  unfold fetch_crossref_details at h
  cases hY : crYear m with
  | none => rw [hY] at h; exact Option.noConfusion h
  | some yr =>
    rw [hY] at h
    have hry : r.year = yr := by rw [← Option.some.inj h]
    rw [hry]
    unfold crYear at hY
    unfold crossrefYearSpec
    cases h1 : m.published with
    | some d => rw [h1] at hY; exact crDateYear_spec d yr hY
    | none =>
      rw [h1] at hY
      cases h2 : m.publishedPrint with
      | some d => rw [h2] at hY; exact crDateYear_spec d yr hY
      | none =>
        rw [h2] at hY
        cases h3 : m.publishedOnline with
        | some d => rw [h3] at hY; exact crDateYear_spec d yr hY
        | none =>
          rw [h3] at hY
          simpa using (Option.some.inj hY).symm

/-- A CrossRef message with `published-print` and `published-online` both
present (and no `published`): the earlier key must win. -/
def c6msg : CRMessage := {
  author := none
  title := none
  containerTitle := none
  published := none
  publishedPrint := some { dateParts := some [[1999, 1], [2000]] }
  publishedOnline := some { dateParts := some [[2005]] }
  doi := none
  url := none
  type := some "journal-article"
  abstract := none
  isReferencedByCount := none
  publisher := none
  volume := none
  issue := none
  page := none
  referenceCount := none }

/-- The CrossRef result for `c6msg`. -/
def c6res : CRResult := {
  authors := none
  title := none
  journal := none
  year := some 1999
  doi := none
  url := none
  type := "Research Article"
  is_preprint := false
  abstract := ""
  citations := 0
  publisher := ""
  volume := ""
  issue := ""
  pages := ""
  references_count := none }

theorem C6_witness :
    c6res.year = crossrefYearSpec c6msg ∧ crossrefYearSpec c6msg = some 1999 :=
  ⟨C6_year_priority c6msg c6res rfl, rfl⟩

/-- A CrossRef oracle that always fails. -/
def noCr : String → Option CRResult := fun _ => none

/-- C8: `main` exits 0 iff parsing yields at least one Publication (which is
then saved); it exits 1 both on a failed/falsy top-level works fetch and on
zero parsed publications, and in the fetch-failure case nothing is written. -/
theorem C8_exit_codes (cr : String → Option CRResult) (wd : Nat → Option WorkDetail)
    (fr : Option OrcidData) (now : String) :
    ((main cr wd fr now).1 = 0 ↔ parse_orcid_works cr wd fr ≠ []) ∧
    ((main cr wd fr now).1 = 0 ∨ (main cr wd fr now).1 = 1) ∧
    (fr = none → (main cr wd fr now).1 = 1 ∧ (main cr wd fr now).2 = none) ∧
    ((main cr wd fr now).1 = 0 →
      (main cr wd fr now).2 = some (save_publications now (parse_orcid_works cr wd fr))) := by
  cases fr with
  | none => simp [main, parse_orcid_works]
  | some d =>
    by_cases h : parse_orcid_works cr wd (some d) = [] <;>
      simp [main, h, List.isEmpty_iff]

theorem C8_witness :
    (main noCr noWd none "2024-01-01T00:00:00").1 = 1 ∧
    (main noCr noWd none "2024-01-01T00:00:00").2 = none :=
  (C8_exit_codes noCr noWd none "2024-01-01T00:00:00").2.2.1 rfl

/-- C10: `parse_orcid_works` is total on malformed input: falsy data and
data without a `group` key give the empty list; a group whose work-summary
list is absent/empty or whose first summary is null is skipped, contributing
nothing to the output.  (Totality — "no exception raised" — is expressed by
the embedding being a total function landing in these values.) -/
theorem C10_total_on_malformed (cr : String → Option CRResult)
    (wd : Nat → Option WorkDetail) :
    parse_orcid_works cr wd none = [] ∧
    (∀ d : OrcidData, d.group = none → parse_orcid_works cr wd (some d) = []) ∧
    (∀ g : Group, g.workSummary.getD [] = [] → processGroup cr wd g = none) ∧
    (∀ g rest, g.workSummary.getD [] = none :: rest → processGroup cr wd g = none) ∧
    (∀ gs1 gs2 g, processGroup cr wd g = none →
      (gs1 ++ g :: gs2).filterMap (processGroup cr wd) =
        (gs1 ++ gs2).filterMap (processGroup cr wd)) := by
  refine ⟨rfl, ?_, ?_, ?_, ?_⟩
  · intro d h
    simp [parse_orcid_works, h]
  · intro g h
    have hf : firstSummary g = none := by unfold firstSummary; rw [h]
    unfold processGroup processGroupCandidate
    rw [hf]
  · intro g rest h
    have hf : firstSummary g = none := by unfold firstSummary; rw [h]
    unfold processGroup processGroupCandidate
    rw [hf]
  · intro gs1 gs2 g h
    simp [List.filterMap_append, List.filterMap_cons, h]

theorem C10_witness :
    parse_orcid_works noCr noWd none = [] ∧
    parse_orcid_works noCr noWd (some { group := none }) = [] ∧
    processGroup noCr noWd { workSummary := none } = none ∧
    processGroup noCr noWd { workSummary := some [none] } = none := by
  have h := C10_total_on_malformed noCr noWd
  exact ⟨h.1, h.2.1 { group := none } rfl, h.2.2.1 { workSummary := none } rfl,
    h.2.2.2.1 { workSummary := some [none] } [] rfl⟩

theorem strOr_of_falsy (a : Option String) (b : String) (h : optStrTruthy a = false) :
    strOr a b = b := by
  rw [strOr_eq_ite, h]
  simp

theorem strOr_of_truthy (a : Option String) (b : String) (h : optStrTruthy a = true) :
    a = some (strOr a b) := by
  cases a with
  | none => simp [optStrTruthy] at h
  | some s =>
    have hs : s ≠ "" := of_decide_eq_true h
    simp [strOr, hs]

theorem optStrTruthy_some (a : Option String) (h : optStrTruthy a = true) :
    a = some (a.getD "") := by
  cases a with
  | none => simp [optStrTruthy] at h
  | some s => rfl

/-- An emitted publication comes from a candidate with the same fields. -/
theorem processGroup_some (cr : String → Option CRResult) (wd : Nat → Option WorkDetail)
    (g : Group) (p : Publication) (h : processGroup cr wd g = some p) :
    ∃ t y, processGroupCandidate cr wd g = some (p, t, y) := by
  unfold processGroup at h
  cases hc : processGroupCandidate cr wd g with
  | none => rw [hc] at h; exact Option.noConfusion h
  | some v =>
    obtain ⟨q, t, y⟩ := v
    rw [hc] at h
    dsimp only at h
    by_cases hty : t ≠ "" ∧ yearStrTruthy y = true
    · rw [if_pos hty] at h
      exact ⟨t, y, by rw [Option.some.inj h]⟩
    · rw [if_neg hty] at h
      exact Option.noConfusion h

/-- The authors field of the candidate record, by path: CrossRef join when
CrossRef answered, the work-detail fallback join in the two fallback paths. -/
theorem processSummary_authors (cr : String → Option CRResult)
    (wd : Nat → Option WorkDetail) (ws : WorkSummary) (q : Publication)
    (t : String) (y : Option (Option Int))
    (h : processSummary cr wd ws = some (q, t, y)) :
    (∀ c, cr ((orcidDoi ws).getD "") = some c →
      optStrTruthy (orcidDoi ws) = true →
      q.authors = strOr c.authors "Authors not available") ∧
    (cr ((orcidDoi ws).getD "") = none →
      optStrTruthy (orcidDoi ws) = true →
      q.authors = if optStrTruthy (fallbackAuthors wd ws.putCode) = true
        then (fallbackAuthors wd ws.putCode).getD "" else "Authors not available") ∧
    (optStrTruthy (orcidDoi ws) = false →
      q.authors = if optStrTruthy (fallbackAuthors wd ws.putCode) = true
        then (fallbackAuthors wd ws.putCode).getD "" else "Authors not available") := by
  unfold processSummary at h
  dsimp only at h
  by_cases hp : ws.type.getD "journal-article" = "preprint"
  · rw [if_pos hp] at h
    exact Option.noConfusion h
  · rw [if_neg hp] at h
    by_cases hd : optStrTruthy (orcidDoi ws) = true
    · rw [if_pos hd] at h
      cases hcr : cr ((orcidDoi ws).getD "") with
      | some c0 =>
        rw [hcr] at h
        dsimp only at h
        by_cases hpre : c0.is_preprint = true
        · rw [if_pos hpre] at h
          exact Option.noConfusion h
        · rw [if_neg hpre] at h
          have hinj := Option.some.inj h
          simp only [Prod.mk.injEq] at hinj
          obtain ⟨hq, -, -⟩ := hinj
          refine ⟨?_, ?_, ?_⟩
          · intro c hcr2 _
            obtain rfl : c0 = c := Option.some.inj hcr2
            rw [← hq]
            rfl
          · intro hcr2 _
            exact Option.noConfusion hcr2
          · intro hDf
            rw [hd] at hDf
            exact Bool.noConfusion hDf
      | none =>
        rw [hcr] at h
        dsimp only at h
        have hinj := Option.some.inj h
        simp only [Prod.mk.injEq] at hinj
        obtain ⟨hq, -, -⟩ := hinj
        refine ⟨?_, ?_, ?_⟩
        · intro c hcr2 _
          exact Option.noConfusion hcr2
        · intro _ _
          rw [← hq]
          by_cases hfb : optStrTruthy (fallbackAuthors wd ws.putCode) = true
          · rw [if_pos hfb, if_pos hfb]
          · rw [if_neg hfb, if_neg hfb]
        · intro hDf
          rw [hd] at hDf
          exact Bool.noConfusion hDf
    · rw [if_neg hd] at h
      have hinj := Option.some.inj h
      simp only [Prod.mk.injEq] at hinj
      obtain ⟨hq, -, -⟩ := hinj
      refine ⟨?_, ?_, ?_⟩
      · intro c _ hD
        exact absurd hD hd
      · intro _ hD
        exact absurd hD hd
      · intro _
        rw [← hq]
        by_cases hfb : optStrTruthy (fallbackAuthors wd ws.putCode) = true
        · rw [if_pos hfb, if_pos hfb]
        · rw [if_neg hfb, if_neg hfb]

/-- A CrossRef message without an `author` key, used against C9. -/
def c9msg : CRMessage := {
  author := none
  title := none
  containerTitle := none
  published := some { dateParts := some [[2020]] }
  publishedPrint := none
  publishedOnline := none
  doi := some "10.1/x"
  url := none
  type := some "journal-article"
  abstract := none
  isReferencedByCount := none
  publisher := none
  volume := none
  issue := none
  page := none
  referenceCount := none }

def c9cr : String → Option CRResult :=
  fun d => if d = "10.1/x" then fetch_crossref_details c9msg else none

/-- A work-detail oracle whose contributor credit names are available. -/
def c9wd : Nat → Option WorkDetail := fun _ =>
  some { contributors := some { contributor := some [some { creditName := some { value := some "Alice Smith" } }] } }

/-- An ORCID summary with put-code, title, year and the DOI `10.1/x`. -/
def c9ws : WorkSummary := {
  putCode := some 7
  title := some { title := some { value := some "Foo" } }
  publicationDate := some { year := some { value := some (some 2020) } }
  journalTitle := none
  type := some "journal-article"
  externalIds := some { externalId := some [some { idType := some "doi", idValue := some "10.1/x" }] }
  url := none }

def c9g : Group := { workSummary := some [some c9ws] }

/-- C9 counterexample: the emitted publication for `c9g` carries the
sentinel "Authors not available" although a source does yield author names —
the ORCID work-detail fallback would produce "Alice Smith" — because the
CrossRef lookup succeeded (with an empty author join) and the fallback is
then never consulted.  This falsifies the claimed "exactly when no source
yields author names". -/
theorem C9_counterexample :
    (processGroup c9cr c9wd c9g).map Publication.authors = some "Authors not available" ∧
    extract_authors_from_work_detail (c9wd 7) = some "Alice Smith" ∧
    (c9cr "10.1/x").map CRResult.authors = some none :=
  ⟨rfl, rfl, rfl⟩

/-- C9 (amended): for every emitted Publication, the authors field is the
sentinel "Authors not available" exactly as determined by the consulted
source alone: when CrossRef answered for the work's DOI, the sentinel
appears iff CrossRef's ", "-joined author string is absent/empty (the
work-detail fallback is not consulted in that path), and otherwise — when
CrossRef returned nothing or there is no truthy DOI — the sentinel appears
iff the work-detail contributor fallback yields no truthy credit-name join;
when the consulted source yields a name string, authors equals it. -/
theorem C9_authors_amended (cr : String → Option CRResult)
    (wd : Nat → Option WorkDetail) (g : Group) (ws : WorkSummary) (p : Publication)
    (h1 : firstSummary g = some ws) (h2 : processGroup cr wd g = some p) :
    (∀ c, cr ((orcidDoi ws).getD "") = some c →
      optStrTruthy (orcidDoi ws) = true →
      (optStrTruthy c.authors = false → p.authors = "Authors not available") ∧
      (optStrTruthy c.authors = true → c.authors = some p.authors)) ∧
    (cr ((orcidDoi ws).getD "") = none →
      optStrTruthy (orcidDoi ws) = true →
      (optStrTruthy (fallbackAuthors wd ws.putCode) = false →
        p.authors = "Authors not available") ∧
      (optStrTruthy (fallbackAuthors wd ws.putCode) = true →
        fallbackAuthors wd ws.putCode = some p.authors)) ∧
    (optStrTruthy (orcidDoi ws) = false →
      (optStrTruthy (fallbackAuthors wd ws.putCode) = false →
        p.authors = "Authors not available") ∧
      (optStrTruthy (fallbackAuthors wd ws.putCode) = true →
        fallbackAuthors wd ws.putCode = some p.authors)) := by
  obtain ⟨t, y, hc⟩ := processGroup_some cr wd g p h2
  unfold processGroupCandidate at hc
  rw [h1] at hc
  dsimp only at hc
  have hch := processSummary_authors cr wd ws p t y hc
  refine ⟨?_, ?_, ?_⟩
  · intro c hcr hD
    have ha := hch.1 c hcr hD
    constructor
    · intro hf
      rw [ha, strOr_of_falsy _ _ hf]
    · intro ht
      rw [ha]
      exact strOr_of_truthy _ _ ht
  · intro hcr hD
    have ha := hch.2.1 hcr hD
    constructor
    · intro hf
      rw [ha, if_neg]
      simp [hf]
    · intro ht
      rw [ha, if_pos ht]
      exact optStrTruthy_some _ ht
  · intro hD
    have ha := hch.2.2 hD
    constructor
    · intro hf
      rw [ha, if_neg]
      simp [hf]
    · intro ht
      rw [ha, if_pos ht]
      exact optStrTruthy_some _ ht

/-- The publication emitted for `c9g`. -/
def c9pub : Publication := {
  title := "Foo"
  authors := "Authors not available"
  journal := ""
  year := some 2020
  doi := some "10.1/x"
  url := some "https://doi.org/10.1/x"
  type := "Research Article"
  citations := 0
  abstract := ""
  publisher := ""
  volume := ""
  issue := ""
  pages := ""
  references_count := 0 }

/-- The CrossRef result for `c9msg` (no author join). -/
def c9res : CRResult := {
  authors := none
  title := none
  journal := none
  year := some 2020
  doi := some "10.1/x"
  url := some "https://doi.org/10.1/x"
  type := "Research Article"
  is_preprint := false
  abstract := ""
  citations := 0
  publisher := ""
  volume := ""
  issue := ""
  pages := ""
  references_count := none }

theorem C9_witness : c9pub.authors = "Authors not available" :=
  ((C9_authors_amended c9cr c9wd c9g c9ws c9pub rfl rfl).1 c9res rfl rfl).1 rfl

end AstWeb
